import Mathlib

/-!
Verification of the medpy image-loading dispatcher (`medpy/io/load.py`).

The module's `load` function classifies a path by file suffix, routes it to
one of three backend loader functions, and on any classification or
invocation failure falls back to a fixed order of backends, raising a
pending error only when every fallback also fails.  The backends and the
file system are external; they are modelled as an abstract environment
(`fileExists : String → Bool`, `run : Backend → Outcome α`), while the
dispatch tables, classification, message construction and control flow are
translated directly from the source.  `load` additionally returns the list
of backend invocations made, in order, so that claims about which backends
were or were not invoked can be stated.
-/

namespace Medpy

/-- Logical image type tags, the values of the `suffix_to_type` dictionary. -/
inductive ImageType
  | nifti
  | analyze
  | dicom
  | meta
  | nrrd
  | png
  | bmp
  | tif
  | jpg
deriving DecidableEq, Repr

/-- The three private loader functions of the module. -/
inductive Backend
  | nibabel
  | pydicom
  | itk
deriving DecidableEq, Repr

/-- Mapping from file suffix to type string (`suffix_to_type` in the source),
kept in the dictionary's insertion order. -/
def suffix_to_type : List (String × ImageType) :=
  [("nii", ImageType.nifti),
   ("nii.gz", ImageType.nifti),
   ("hdr", ImageType.analyze),
   ("img", ImageType.analyze),
   ("img.gz", ImageType.analyze),
   ("dcm", ImageType.dicom),
   ("dicom", ImageType.dicom),
   ("mhd", ImageType.meta),
   ("mha", ImageType.meta),
   ("nrrd", ImageType.nrrd),
   ("nhdr", ImageType.nrrd),
   ("png", ImageType.png),
   ("bmp", ImageType.bmp),
   ("tif", ImageType.tif),
   ("tiff", ImageType.tif),
   ("jpg", ImageType.jpg),
   ("jpeg", ImageType.jpg)]

/-- Mapping from type string to description string (`type_to_string`). -/
def type_to_string : ImageType → String
  | ImageType.nifti => "NifTi - Neuroimaging Informatics Technology Initiative (.nii, nii.gz)"
  | ImageType.analyze => "Analyze (plain, SPM99, SPM2) (.hdr/.img, .img.gz)"
  | ImageType.dicom => "Dicom - Digital Imaging and Communications in Medicine (.dcm, .dicom)"
  | ImageType.meta => "Itk/Vtk MetaImage (.mhd, .mha/.raw)"
  | ImageType.nrrd => "Nrrd - Nearly Raw Raster Data (.nhdr, .nrrd)"
  | ImageType.png => "Portable Network Graphics (.png)"
  | ImageType.bmp => "Bitmap Image File (.bmp)"
  | ImageType.tif => "Tagged Image File Format (.tif,.tiff)"
  | ImageType.jpg => "Joint Photographic Experts Group (.jpg, .jpeg)"

/-- Mapping from type string to responsible loader function (`type_to_function`). -/
def type_to_function : ImageType → Backend
  | ImageType.nifti => Backend.nibabel
  | ImageType.analyze => Backend.nibabel
  | ImageType.dicom => Backend.pydicom
  | ImageType.meta => Backend.itk
  | ImageType.nrrd => Backend.itk
  | ImageType.png => Backend.itk
  | ImageType.bmp => Backend.itk
  | ImageType.tif => Backend.itk
  | ImageType.jpg => Backend.itk

/-- Order of loader functions used in case of fallback to brute force
(`load_fallback_order`). -/
def load_fallback_order : List Backend :=
  [Backend.nibabel, Backend.pydicom, Backend.itk]

/-- The keys of `type_to_string` in dictionary insertion order; used to render
`type_to_string.values()`. -/
def type_order : List ImageType :=
  [ImageType.nifti, ImageType.analyze, ImageType.dicom, ImageType.meta,
   ImageType.nrrd, ImageType.png, ImageType.bmp, ImageType.tif, ImageType.jpg]

/-- The values of `type_to_string` in dictionary insertion order. -/
def type_to_string_values : List String :=
  type_order.map type_to_string

/-- Semantics of Python `str.split` on a single dot, over the character list:
segments between dots, with empty segments preserved and the empty string
splitting to one empty segment. -/
def splitCharsOnDot : List Char → List (List Char)
  | [] => [[]]
  | c :: rest =>
    let r := splitCharsOnDot rest
    if c = Char.ofNat 46 then [] :: r
    else
      match r with
      | [] => [[c]]
      | seg :: segs => (c :: seg) :: segs

/-- Python `image.split(.)` as a list of strings. -/
def splitOnDot (s : String) : List String :=
  (splitCharsOnDot s.data).map (fun cs => String.mk cs)

/-- Python `str.lower`, restricted to the ASCII range handled by
`Char.toLower`. -/
def pyLower (s : String) : String := String.mk (s.data.map Char.toLower)

/-- Python `".".join(...)`. -/
def joinDot : List String → String
  | [] => ""
  | [s] => s
  | s :: rest => s ++ "." ++ joinDot rest

/-- Python `image.split(.)[-1]`: the last dot-separated segment of the path
(the split list is never empty, so the default is unused). -/
def lastSegment (image : String) : String :=
  (splitOnDot image).getLastD ""

/-- Python `image.split(.)[-2:]`: the last two dot-separated segments (or the
whole list when it has fewer than two elements). -/
def lastTwoSegments (image : String) : List String :=
  let parts := splitOnDot image
  parts.drop (parts.length - 2)

/-- The first candidate suffix: last segment, lowercased. -/
def singleSuffix (image : String) : String :=
  pyLower (lastSegment image)

/-- The second candidate suffix: the compound of the two last segments, each
lowercased, joined by a dot. -/
def compoundSuffix (image : String) : String :=
  joinDot ((lastTwoSegments image).map pyLower)

/-- Suffix classification of the `load` source: look the lowercased last
segment up in `suffix_to_type`; if absent, look up the lowercased compound of
the last two segments; if that is also absent the `KeyError` branch is taken,
modelled as `none`. -/
def classify (image : String) : Option ImageType :=
  match suffix_to_type.lookup (singleSuffix image) with
  | some t => some t
  | none => suffix_to_type.lookup (compoundSuffix image)

/-- The three error classes raised by `load`, each carrying its message. -/
inductive LoadError
  | imageLoadingError (msg : String)
  | imageTypeError (msg : String)
  | dependencyError (msg : String)
deriving DecidableEq, Repr

/-- Outcome of invoking one backend loader on the (fixed) path: it returns a
result, raises an `ImportError`, or raises any other exception. -/
inductive Outcome (α : Type)
  | ok (r : α)
  | importError (e : String)
  | err (e : String)
deriving DecidableEq, Repr

/-- Whether a backend invocation succeeded. -/
def Outcome.isOk {α : Type} : Outcome α → Bool
  | Outcome.ok _ => true
  | Outcome.importError _ => false
  | Outcome.err _ => false

/-- A single-quote character, written via its code point. -/
def squote : String := String.singleton (Char.ofNat 39)

/-- Python `repr` of a string containing no quotes or escapes: the string
wrapped in single quotes. -/
def pyStrRepr (s : String) : String := squote ++ s ++ squote

/-- Python `", ".join(...)`. -/
def joinCommaSpace : List String → String
  | [] => ""
  | [s] => s
  | s :: rest => s ++ ", " ++ joinCommaSpace rest

/-- Python 3 rendering of `dict.values()` under `str.format`:
`dict_values([...])` with the comma-separated reprs of the values. -/
def renderDictValues (xs : List String) : String :=
  "dict_values([" ++ joinCommaSpace (xs.map pyStrRepr) ++ "])"

/-- Message of the `ImageLoadingError` raised when the file does not exist. -/
def notExistMsg (image : String) : String :=
  "The supplied image " ++ image ++ " does not exist."

/-- Message of the pending `DependencyError` built from an `ImportError` of
the routed backend. -/
def depMsg (ty : ImageType) (e : String) : String :=
  "Loading images of type " ++ type_to_string ty ++
    " requires a third-party module that could not be encountered. Reason: " ++ e ++ "."

/-- Message of the pending `ImageLoadingError` built from any other exception
of the routed backend. -/
def loadFailMsg (image : String) (ty : ImageType) (e : String) : String :=
  "Failes to load image " ++ image ++ " as " ++ type_to_string ty ++
    ". Reason signaled by third-party module: " ++ e

/-- Message of the pending `ImageTypeError` built on classification failure;
note it embeds the raw (non-lowercased) last segment, not the compound
suffix. -/
def typeErrMsg (image : String) : String :=
  "The ending " ++ lastSegment image ++ " of " ++ image ++
    " could not be associated with any known image type. Supported types are: " ++
    renderDictValues type_to_string_values

/-- The brute-force loop of `load`: try each backend in order, return the
first success, otherwise raise the pending error.  Also returns the list of
backends actually invoked, in order. -/
def runFallback {α : Type} (run : Backend → Outcome α) (pending : LoadError) :
    List Backend → Except LoadError α × List Backend
  | [] => (Except.error pending, [])
  | b :: rest =>
    match run b with
    | Outcome.ok r => (Except.ok r, [b])
    | Outcome.importError _ =>
      let res := runFallback run pending rest
      (res.1, b :: res.2)
    | Outcome.err _ =>
      let res := runFallback run pending rest
      (res.1, b :: res.2)

/-- The `load` function of `medpy/io/load.py` over an abstract environment:
`fileExists` models `os.path.exists`, and `run b` the invocation of backend
`b` on `image`.  Returns the result (value or raised error) together with the
ordered list of backend invocations. -/
def load {α : Type} (fileExists : String → Bool) (run : Backend → Outcome α)
    (image : String) : Except LoadError α × List Backend :=
  if fileExists image = false then
    (Except.error (LoadError.imageLoadingError (notExistMsg image)), [])
  else
    match classify image with
    | some ty =>
      match run (type_to_function ty) with
      | Outcome.ok r => (Except.ok r, [type_to_function ty])
      | Outcome.importError e =>
        let res := runFallback run (LoadError.dependencyError (depMsg ty e)) load_fallback_order
        (res.1, type_to_function ty :: res.2)
      | Outcome.err e =>
        let res := runFallback run (LoadError.imageLoadingError (loadFailMsg image ty e)) load_fallback_order
        (res.1, type_to_function ty :: res.2)
    | none =>
      runFallback run (LoadError.imageTypeError (typeErrMsg image)) load_fallback_order

/-- The first backend result in the given order that succeeds, if any. -/
def firstSuccess {α : Type} (run : Backend → Outcome α) : List Backend → Option α
  | [] => none
  | b :: rest =>
    match run b with
    | Outcome.ok r => some r
    | Outcome.importError _ => firstSuccess run rest
    | Outcome.err _ => firstSuccess run rest

/-- The backends a fallback pass over `bs` invokes: all of them when none
succeeds, otherwise the failing ones up to and including the first success. -/
def attemptedOf {α : Type} (run : Backend → Outcome α) (bs : List Backend) :
    List Backend :=
  match bs.dropWhile (fun b => !(run b).isOk) with
  | [] => bs
  | b :: _ => bs.takeWhile (fun b => !(run b).isOk) ++ [b]

/-- Abstraction of the object returned by `nibabel.load`: only the shape of
its `get_data()` pixel array is relevant to the claims; the object itself is
what `__load_nibabel` returns as header. -/
structure NibImage where
  dataShape : List Nat
deriving DecidableEq, Repr

/-- Semantics of `scipy.squeeze` at the level of array shapes: every axis of
extent one is removed, wherever it occurs. -/
def squeezeShape (shape : List Nat) : List Nat :=
  shape.filter (fun d => d != 1)

/-- The `__load_nibabel` loader after `nibabel.load` produced `img`: it
returns `(scipy.squeeze(img.get_data()), img)`, here at shape level. -/
def load_nibabel (img : NibImage) : List Nat × NibImage :=
  (squeezeShape img.dataShape, img)

/-- Modelled from the spec: "returns array with a redundant leading/trailing
singleton dimension removed" — remove extent-one axes only from the front and
the back of the shape, leaving interior axes alone. -/
def squeezeLeadingTrailingShape (shape : List Nat) : List Nat :=
  ((shape.dropWhile (fun d => d == 1)).reverse.dropWhile (fun d => d == 1)).reverse

/-- Abstraction of the dataset object returned by `dicom.read_file`: only the
shape of its `pixel_array` is relevant; the object is returned as header. -/
structure DicomImage where
  pixelShape : List Nat
deriving DecidableEq, Repr

/-- Outcome of one `dicom.read_file` call: a dataset, an `InvalidDicomError`,
or any other exception. -/
inductive DicomRead
  | ok (img : DicomImage)
  | invalidDicom (e : String)
  | fail (e : String)
deriving DecidableEq, Repr

/-- Semantics of `scipy.transpose` without an axes argument at shape level:
the axis order is reversed. -/
def transposeShape (shape : List Nat) : List Nat :=
  shape.reverse

/-- The `__load_pydicom` loader over an abstract `dicom.read_file`
environment: the argument of `readFile` is the `force` flag.  An
`InvalidDicomError` on the plain read triggers exactly one forced retry;
every other exception, and any exception of the retry, propagates.  On
success the pixel array is transposed before being returned with the dataset
as header.  The second component records the reads performed, in order. -/
def load_pydicom (readFile : Bool → DicomRead) :
    Except String (List Nat × DicomImage) × List Bool :=
  match readFile false with
  | DicomRead.ok img => (Except.ok (transposeShape img.pixelShape, img), [false])
  | DicomRead.invalidDicom _ =>
    match readFile true with
    | DicomRead.ok img => (Except.ok (transposeShape img.pixelShape, img), [false, true])
    | DicomRead.invalidDicom e => (Except.error e, [false, true])
    | DicomRead.fail e => (Except.error e, [false, true])
  | DicomRead.fail e => (Except.error e, [false])

/-- Substring containment: `t` occurs contiguously inside `s`. -/
def strContains (s t : String) : Prop :=
  ∃ pre post : String, pre ++ t ++ post = s

/-- The suffix under which classification succeeded, when it did: the
lowercased last segment if that is a key of `suffix_to_type`, otherwise the
lowercased compound suffix if that is a key. -/
def classifiedSuffix (image : String) : Option String :=
  match suffix_to_type.lookup (singleSuffix image) with
  | some _ => some (singleSuffix image)
  | none =>
    match suffix_to_type.lookup (compoundSuffix image) with
    | some _ => some (compoundSuffix image)
    | none => none

/-! Helper lemmas about the brute-force loop. -/

/-- When every backend in the list fails, the fallback pass raises the
pending error and has invoked every backend in the list. -/
theorem runFallback_allFail {α : Type} (run : Backend → Outcome α)
    (pending : LoadError) (bs : List Backend)
    (h : ∀ b ∈ bs, (run b).isOk = false) :
    runFallback run pending bs = (Except.error pending, bs) := by
  induction bs with
  | nil => rfl
  | cons b rest ih =>
    have hb : (run b).isOk = false := h b (List.mem_cons_self b rest)
    have hrest : ∀ x ∈ rest, (run x).isOk = false :=
      fun x hx => h x (List.mem_cons_of_mem b hx)
    cases hrb : run b with
    | ok r => simp [Outcome.isOk, hrb] at hb
    | importError e => simp [runFallback, hrb, ih hrest]
    | err e => simp [runFallback, hrb, ih hrest]

/-- When some backend in the list succeeds, the fallback pass returns the
result of the first succeeding one. -/
theorem runFallback_firstSuccess {α : Type} (run : Backend → Outcome α)
    (pending : LoadError) (bs : List Backend) (r : α)
    (h : firstSuccess run bs = some r) :
    (runFallback run pending bs).1 = Except.ok r := by
  induction bs with
  | nil => simp [firstSuccess] at h
  | cons b rest ih =>
    cases hrb : run b with
    | ok r2 =>
      simp [firstSuccess, hrb] at h
      simp [runFallback, hrb, h]
    | importError e =>
      simp [firstSuccess, hrb] at h
      simp [runFallback, hrb, ih h]
    | err e =>
      simp [firstSuccess, hrb] at h
      simp [runFallback, hrb, ih h]

/-- Prepending a failing backend to a fallback pass prepends it to the
attempted list. -/
theorem attemptedOf_cons_fail {α : Type} (run : Backend → Outcome α) (b : Backend)
    (bs : List Backend) (h : (run b).isOk = false) :
    attemptedOf run (b :: bs) = b :: attemptedOf run bs := by
  unfold attemptedOf
  simp only [List.dropWhile_cons, List.takeWhile_cons, h, Bool.not_false, if_true]
  cases hdw : List.dropWhile (fun x => !(run x).isOk) bs with
  | nil => simp
  | cons c cs => simp

/-- A fallback pass whose first backend succeeds attempts only that one. -/
theorem attemptedOf_cons_ok {α : Type} (run : Backend → Outcome α) (b : Backend)
    (bs : List Backend) (h : (run b).isOk = true) :
    attemptedOf run (b :: bs) = [b] := by
  unfold attemptedOf
  simp only [List.dropWhile_cons, List.takeWhile_cons, h, Bool.not_true, if_false]
  simp

/-- The invocation trace of a fallback pass is exactly `attemptedOf`. -/
theorem runFallback_trace {α : Type} (run : Backend → Outcome α)
    (pending : LoadError) (bs : List Backend) :
    (runFallback run pending bs).2 = attemptedOf run bs := by
  induction bs with
  | nil => rfl
  | cons b rest ih =>
    cases hrb : run b with
    | ok r =>
      rw [attemptedOf_cons_ok run b rest (by simp [Outcome.isOk, hrb])]
      simp [runFallback, hrb]
    | importError e =>
      rw [attemptedOf_cons_fail run b rest (by simp [Outcome.isOk, hrb])]
      simp [runFallback, hrb, ih]
    | err e =>
      rw [attemptedOf_cons_fail run b rest (by simp [Outcome.isOk, hrb])]
      simp [runFallback, hrb, ih]

/-! Helper lemmas about substring containment. -/

/-- A string contains itself at the end of any prefix. -/
theorem strContains_self_of_append (u t : String) : strContains (u ++ t) t :=
  ⟨u, "", by simp⟩

/-- Containment is preserved by extending the string on the left. -/
theorem strContains_appendLeft (u s t : String) (h : strContains s t) :
    strContains (u ++ s) t := by
  obtain ⟨pre, post, hp⟩ := h
  exact ⟨u ++ pre, post, by rw [← hp]; simp [String.append_assoc]⟩

/-- Containment is preserved by extending the string on the right. -/
theorem strContains_appendRight (s v t : String) (h : strContains s t) :
    strContains (s ++ v) t := by
  obtain ⟨pre, post, hp⟩ := h
  exact ⟨pre, post ++ v, by rw [← hp]; simp [String.append_assoc]⟩

/-- Every string of the list occurs inside the comma-joined rendering of the
list of its Python reprs. -/
theorem strContains_joinCommaSpace (xs : List String) (d : String) (h : d ∈ xs) :
    strContains (joinCommaSpace (xs.map pyStrRepr)) d := by
  induction xs with
  | nil => cases h
  | cons x rest ih =>
    have hx : strContains (pyStrRepr x) x := ⟨squote, squote, rfl⟩
    rcases List.mem_cons.mp h with rfl | hr
    · cases rest with
      | nil => exact hx
      | cons y ys =>
        show strContains (pyStrRepr d ++ ", " ++ joinCommaSpace ((y :: ys).map pyStrRepr)) d
        exact strContains_appendRight _ _ _ (strContains_appendRight _ _ _ hx)
    · cases rest with
      | nil => cases hr
      | cons y ys =>
        show strContains (pyStrRepr x ++ ", " ++ joinCommaSpace ((y :: ys).map pyStrRepr)) d
        have : strContains (joinCommaSpace ((y :: ys).map pyStrRepr)) d := ih hr
        have h2 := strContains_appendLeft (pyStrRepr x ++ ", ") _ d this
        simpa [String.append_assoc] using h2

/-- Every value of the list occurs inside the rendered `dict_values` string. -/
theorem strContains_renderDictValues (xs : List String) (d : String) (h : d ∈ xs) :
    strContains (renderDictValues xs) d := by
  show strContains ("dict_values([" ++ joinCommaSpace (xs.map pyStrRepr) ++ "])") d
  have h1 := strContains_appendLeft "dict_values([" _ d (strContains_joinCommaSpace xs d h)
  have h2 := strContains_appendRight ("dict_values([" ++ joinCommaSpace (xs.map pyStrRepr)) "])" d h1
  simpa [String.append_assoc] using h2

/-- When classification succeeded under some suffix, `classify` is the table
lookup of exactly that suffix. -/
theorem classify_eq_lookup_classifiedSuffix (image : String) (s : String)
    (h : classifiedSuffix image = some s) :
    classify image = suffix_to_type.lookup s := by
  unfold classifiedSuffix at h
  cases h1 : suffix_to_type.lookup (singleSuffix image) with
  | some t =>
    rw [h1] at h
    injection h with h
    subst h
    simp [classify, h1]
  | none =>
    rw [h1] at h
    cases h2 : suffix_to_type.lookup (compoundSuffix image) with
    | some t =>
      rw [h2] at h
      injection h with h
      subst h
      simp [classify, h1]
    | none =>
      rw [h2] at h
      cases h

/-- C5: for every path that does not refer to an existing file, `load` fails
immediately with an ImageLoadingError saying the file does not exist, and the
invocation trace is empty: no backend, primary or fallback, is invoked, and
the existence check is not retried. -/
theorem claim_C5_nonexistent_path {α : Type} (fileExists : String → Bool)
    (run : Backend → Outcome α) (image : String)
    (h : fileExists image = false) :
    load fileExists run image =
      (Except.error (LoadError.imageLoadingError (notExistMsg image)),
        ([] : List Backend)) := by
  simp [load, h]

/-- Witness for C5 at the nonexistent path of the spec example. -/
theorem claim_C5_nonexistent_path_witness :
    load (fun _ => false) (fun _ => (Outcome.ok 0 : Outcome Nat)) "missing.nii" =
      (Except.error (LoadError.imageLoadingError (notExistMsg "missing.nii")),
        ([] : List Backend)) :=
  claim_C5_nonexistent_path (fun _ => false) (fun _ => (Outcome.ok 0 : Outcome Nat))
    "missing.nii" rfl

/-- C6: for every path where classification succeeds and the routed primary
backend succeeds, `load` returns that backend's result and the invocation
trace is exactly the routed backend: no fallback backend is invoked. -/
theorem claim_C6_primary_success {α : Type} (fileExists : String → Bool)
    (run : Backend → Outcome α) (image : String) (ty : ImageType) (r : α)
    (hex : fileExists image = true) (hty : classify image = some ty)
    (hok : run (type_to_function ty) = Outcome.ok r) :
    load fileExists run image = (Except.ok r, [type_to_function ty]) := by
  simp [load, hex, hty, hok]

/-- Witness for C6: a nifti path whose routed backend (nibabel) succeeds. -/
theorem claim_C6_primary_success_witness :
    load (fun _ => true)
      (fun b => if b = Backend.nibabel then (Outcome.ok 7 : Outcome Nat)
        else Outcome.err "boom") "scan.nii" =
      (Except.ok 7, [type_to_function ImageType.nifti]) :=
  claim_C6_primary_success (fun _ => true)
    (fun b => if b = Backend.nibabel then (Outcome.ok 7 : Outcome Nat)
      else Outcome.err "boom")
    "scan.nii" ImageType.nifti 7 rfl (by decide) (by decide)

/-- C3: classification takes the lowercased substring after the last dot; if
that is not a key of the suffix table it takes the lowercased compound of the
last two dot-separated segments; and if that is also absent the result is a
classification failure. -/
theorem claim_C3_classification (image : String) :
    (∀ t, suffix_to_type.lookup (pyLower ((splitOnDot image).getLastD "")) = some t →
      classify image = some t) ∧
    (suffix_to_type.lookup (pyLower ((splitOnDot image).getLastD "")) = none →
      classify image =
        suffix_to_type.lookup (joinDot ((lastTwoSegments image).map pyLower))) ∧
    (suffix_to_type.lookup (pyLower ((splitOnDot image).getLastD "")) = none →
      suffix_to_type.lookup (joinDot ((lastTwoSegments image).map pyLower)) = none →
      classify image = none) := by
  refine ⟨?_, ?_, ?_⟩
  · intro t h
    have hs : suffix_to_type.lookup (singleSuffix image) = some t := by
      simpa [singleSuffix, lastSegment] using h
    simp [classify, hs]
  · intro h
    have hs : suffix_to_type.lookup (singleSuffix image) = none := by
      simpa [singleSuffix, lastSegment] using h
    simp [classify, hs, compoundSuffix]
  · intro h1 h2
    have hs1 : suffix_to_type.lookup (singleSuffix image) = none := by
      simpa [singleSuffix, lastSegment] using h1
    have hs2 : suffix_to_type.lookup (compoundSuffix image) = none := by
      simpa [compoundSuffix] using h2
    simp [classify, hs1, hs2]

/-- Witness for C3 at the unclassifiable path of the spec example. -/
theorem claim_C3_classification_witness :
    classify "scan.xyz" = none :=
  (claim_C3_classification "scan.xyz").2.2 (by decide) (by decide)

/-- C4: for every path whose classified suffix is one of nii, nii.gz, hdr,
img, img.gz the primary dispatch selects the nibabel backend; for dcm or
dicom it selects pydicom; for every other recognized suffix it selects itk. -/
theorem claim_C4_routing (image : String) (s : String)
    (h : classifiedSuffix image = some s) :
    (s ∈ ["nii", "nii.gz", "hdr", "img", "img.gz"] →
      (classify image).map type_to_function = some Backend.nibabel) ∧
    (s ∈ ["dcm", "dicom"] →
      (classify image).map type_to_function = some Backend.pydicom) ∧
    (s ∈ ["mhd", "mha", "nrrd", "nhdr", "png", "bmp", "tif", "tiff", "jpg", "jpeg"] →
      (classify image).map type_to_function = some Backend.itk) := by
  have hc := classify_eq_lookup_classifiedSuffix image s h
  refine ⟨?_, ?_, ?_⟩ <;> intro hs <;> rw [hc] <;>
    (simp only [List.mem_cons, List.mem_singleton, List.not_mem_nil, or_false] at hs) <;>
    rcases hs with rfl | rfl | rfl | rfl | rfl | rfl | rfl | rfl | rfl | rfl <;> decide

/-- Witness for C4 at a dicom path. -/
theorem claim_C4_routing_witness :
    (classify "scan.dcm").map type_to_function = some Backend.pydicom :=
  (claim_C4_routing "scan.dcm" "dcm" (by decide)).2.1 (by decide)

/-- C1: when the primary attempt left a pending error and all three fallback
backends fail, `load` raises exactly the pending error of the primary or
classification attempt: DependencyError after an import failure of the routed
backend, ImageLoadingError after any other failure, ImageTypeError after a
classification failure; no fallback failure is raised. -/
theorem claim_C1_pending_error_raised {α : Type} (fileExists : String → Bool)
    (run : Backend → Outcome α) (image : String)
    (hex : fileExists image = true)
    (hfail : ∀ b ∈ load_fallback_order, (run b).isOk = false) :
    (classify image = none →
      (load fileExists run image).1 =
        Except.error (LoadError.imageTypeError (typeErrMsg image))) ∧
    (∀ ty e, classify image = some ty →
      run (type_to_function ty) = Outcome.importError e →
      (load fileExists run image).1 =
        Except.error (LoadError.dependencyError (depMsg ty e))) ∧
    (∀ ty e, classify image = some ty →
      run (type_to_function ty) = Outcome.err e →
      (load fileExists run image).1 =
        Except.error (LoadError.imageLoadingError (loadFailMsg image ty e))) := by
  refine ⟨?_, ?_, ?_⟩
  · intro hcl
    simp [load, hex, hcl, runFallback_allFail run _ _ hfail]
  · intro ty e hcl hrun
    simp [load, hex, hcl, hrun, runFallback_allFail run _ _ hfail]
  · intro ty e hcl hrun
    simp [load, hex, hcl, hrun, runFallback_allFail run _ _ hfail]

/-- Witness for C1 at the spec example: "scan.dcm" with every backend failing
on a missing import, raising DependencyError rather than ImageLoadingError. -/
theorem claim_C1_pending_error_raised_witness :
    (load (fun _ => true)
      (fun _ => (Outcome.importError "No module named dicom" : Outcome Nat))
      "scan.dcm").1 =
      Except.error (LoadError.dependencyError
        (depMsg ImageType.dicom "No module named dicom")) :=
  (claim_C1_pending_error_raised (fun _ => true)
      (fun _ => (Outcome.importError "No module named dicom" : Outcome Nat))
      "scan.dcm" rfl (by intro b _; rfl)).2.1
    ImageType.dicom "No module named dicom" (by decide) rfl

/-- C2: whenever a pending error was constructed, the fallback pass invokes
the backends in the fixed order nibabel, pydicom, itk, without excluding the
backend already tried in the primary attempt, and `load` returns the result
of the first fallback backend that succeeds, raising nothing. -/
theorem claim_C2_fallback_order {α : Type} (fileExists : String → Bool)
    (run : Backend → Outcome α) (image : String)
    (hex : fileExists image = true)
    (hpend : classify image = none ∨
      ∃ ty, classify image = some ty ∧ (run (type_to_function ty)).isOk = false) :
    (load fileExists run image).2 =
      (match classify image with
       | none => ([] : List Backend)
       | some ty => [type_to_function ty]) ++
        attemptedOf run [Backend.nibabel, Backend.pydicom, Backend.itk] ∧
    (∀ r, firstSuccess run [Backend.nibabel, Backend.pydicom, Backend.itk] = some r →
      (load fileExists run image).1 = Except.ok r) ∧
    (∀ ty, classify image = some ty →
      type_to_function ty ∈ [Backend.nibabel, Backend.pydicom, Backend.itk]) := by
  have horder : load_fallback_order = [Backend.nibabel, Backend.pydicom, Backend.itk] := rfl
  rcases hpend with hcl | ⟨ty, hcl, hko⟩
  · refine ⟨?_, ?_, ?_⟩
    · simp [load, hex, hcl, ← horder, runFallback_trace]
    · intro r hr
      rw [← horder] at hr
      simp [load, hex, hcl, runFallback_firstSuccess run _ _ r hr]
    · intro ty hty
      rw [hcl] at hty
      cases hty
  · cases hrun : run (type_to_function ty) with
    | ok r => rw [hrun] at hko; simp [Outcome.isOk] at hko
    | importError e =>
      refine ⟨?_, ?_, ?_⟩
      · simp [load, hex, hcl, hrun, ← horder, runFallback_trace]
      · intro r hr
        rw [← horder] at hr
        simp [load, hex, hcl, hrun, runFallback_firstSuccess run _ _ r hr]
      · intro ty2 _
        cases ty2 <;> decide
    | err e =>
      refine ⟨?_, ?_, ?_⟩
      · simp [load, hex, hcl, hrun, ← horder, runFallback_trace]
      · intro r hr
        rw [← horder] at hr
        simp [load, hex, hcl, hrun, runFallback_firstSuccess run _ _ r hr]
      · intro ty2 _
        cases ty2 <;> decide

/-- Witness for C2 at the spec example: "scan.png" where the routed backend
(itk) fails but nibabel, tried first during fallback, succeeds; `load`
returns nibabel's result and no error surfaces. -/
theorem claim_C2_fallback_order_witness :
    (load (fun _ => true)
      (fun b => if b = Backend.nibabel then (Outcome.ok 5 : Outcome Nat)
        else Outcome.err "cannot read") "scan.png").1 = Except.ok 5 :=
  (claim_C2_fallback_order (fun _ => true)
      (fun b => if b = Backend.nibabel then (Outcome.ok 5 : Outcome Nat)
        else Outcome.err "cannot read") "scan.png" rfl
      (Or.inr ⟨ImageType.png, by decide, rfl⟩)).2.1 5 rfl

/-- C7: on a path with unrecognized suffix where every fallback backend
fails, `load` raises an ImageTypeError whose message contains the
unrecognized ending, the path, and every supported type description. -/
theorem claim_C7_type_error_message {α : Type} (fileExists : String → Bool)
    (run : Backend → Outcome α) (image : String)
    (hex : fileExists image = true) (hcl : classify image = none)
    (hfail : ∀ b ∈ load_fallback_order, (run b).isOk = false) :
    (load fileExists run image).1 =
      Except.error (LoadError.imageTypeError (typeErrMsg image)) ∧
    strContains (typeErrMsg image) (lastSegment image) ∧
    strContains (typeErrMsg image) image ∧
    ∀ d ∈ type_to_string_values, strContains (typeErrMsg image) d := by
  refine ⟨?_, ?_, ?_, ?_⟩
  · simp [load, hex, hcl, runFallback_allFail run _ _ hfail]
  · exact ⟨"The ending ",
      " of " ++ image ++
        " could not be associated with any known image type. Supported types are: " ++
        renderDictValues type_to_string_values,
      by simp [typeErrMsg, String.append_assoc]⟩
  · exact ⟨"The ending " ++ lastSegment image ++ " of ",
      " could not be associated with any known image type. Supported types are: " ++
        renderDictValues type_to_string_values,
      by simp [typeErrMsg, String.append_assoc]⟩
  · intro d hd
    have h1 := strContains_renderDictValues type_to_string_values d hd
    have h2 := strContains_appendLeft
      ("The ending " ++ lastSegment image ++ " of " ++ image ++
        " could not be associated with any known image type. Supported types are: ")
      (renderDictValues type_to_string_values) d h1
    simpa [typeErrMsg, String.append_assoc] using h2

/-- Witness for C7 at the spec example path "scan.xyz". -/
theorem claim_C7_type_error_message_witness :
    (load (fun _ => true) (fun _ => (Outcome.err "cannot read" : Outcome Nat))
      "scan.xyz").1 =
      Except.error (LoadError.imageTypeError (typeErrMsg "scan.xyz")) ∧
    strContains (typeErrMsg "scan.xyz") "xyz" ∧
    strContains (typeErrMsg "scan.xyz") "scan.xyz" ∧
    strContains (typeErrMsg "scan.xyz") (type_to_string ImageType.nrrd) := by
  have h := claim_C7_type_error_message (fun _ => true)
    (fun _ => (Outcome.err "cannot read" : Outcome Nat)) "scan.xyz" rfl
    (by decide) (by intro b _; rfl)
  exact ⟨h.1, h.2.1, h.2.2.1, h.2.2.2 (type_to_string ImageType.nrrd) (by decide)⟩

/-- C10: when classification fails on both suffix candidates, the
ImageTypeError message embeds the final dot-segment of the path in its
original, non-lowercased form, not the compound suffix that was also looked
up; at "a.FOO.BAR" the reported ending is "BAR" while the lookups used "bar"
and "foo.bar". -/
theorem claim_C10_message_raw_last_segment {α : Type} (fileExists : String → Bool)
    (run : Backend → Outcome α) (image : String)
    (hex : fileExists image = true) (hcl : classify image = none)
    (hfail : ∀ b ∈ load_fallback_order, (run b).isOk = false) :
    (load fileExists run image).1 =
      Except.error (LoadError.imageTypeError
        ("The ending " ++ lastSegment image ++ " of " ++ image ++
          " could not be associated with any known image type. Supported types are: " ++
          renderDictValues type_to_string_values)) ∧
    lastSegment "a.FOO.BAR" = "BAR" ∧
    singleSuffix "a.FOO.BAR" = "bar" ∧
    compoundSuffix "a.FOO.BAR" = "foo.bar" := by
  refine ⟨?_, by decide, by decide, by decide⟩
  simp [load, hex, hcl, runFallback_allFail run _ _ hfail, typeErrMsg]

/-- Witness for C10 at "a.FOO.BAR" with every backend failing. -/
theorem claim_C10_message_raw_last_segment_witness :
    (load (fun _ => true) (fun _ => (Outcome.err "cannot read" : Outcome Nat))
      "a.FOO.BAR").1 =
      Except.error (LoadError.imageTypeError
        ("The ending " ++ lastSegment "a.FOO.BAR" ++ " of " ++ "a.FOO.BAR" ++
          " could not be associated with any known image type. Supported types are: " ++
          renderDictValues type_to_string_values)) :=
  (claim_C10_message_raw_last_segment (fun _ => true)
    (fun _ => (Outcome.err "cannot read" : Outcome Nat)) "a.FOO.BAR" rfl
    (by decide) (by intro b _; rfl)).1

/-- Counterexample for C8: on a decoded array of shape [5, 1, 3] the loader
yields shape [5, 3] — `scipy.squeeze` removed the interior singleton axis —
while removing only leading/trailing singleton dimensions, as the claim
describes, would leave [5, 1, 3] unchanged. -/
theorem claim_C8_counterexample :
    (load_nibabel (NibImage.mk [5, 1, 3])).1 = [5, 3] ∧
    squeezeLeadingTrailingShape [5, 1, 3] = [5, 1, 3] ∧
    (load_nibabel (NibImage.mk [5, 1, 3])).1 ≠
      squeezeLeadingTrailingShape [5, 1, 3] := by
  decide

/-- C8 as amended: the nibabel loader returns the decoded pixel array with
every singleton dimension removed, wherever it occurs (not only leading or
trailing ones), paired with the backend's native image object as header. -/
theorem claim_C8_nibabel_squeeze (img : NibImage) :
    (load_nibabel img).2 = img ∧
    (∀ d ∈ (load_nibabel img).1, d ≠ 1) ∧
    (load_nibabel img).1.Sublist img.dataShape ∧
    (∀ d ∈ img.dataShape, d ≠ 1 → d ∈ (load_nibabel img).1) := by
  refine ⟨rfl, ?_, ?_, ?_⟩
  · intro d hd
    have hmem : d ∈ img.dataShape.filter (fun d => d != 1) := hd
    have := List.of_mem_filter hmem
    simpa using this
  · exact List.filter_sublist _
  · intro d hd hne
    exact List.mem_filter.mpr ⟨hd, by simpa using hne⟩

/-- Witness for C8 as amended, at shape [1, 4, 1]. -/
theorem claim_C8_nibabel_squeeze_witness :
    (load_nibabel (NibImage.mk [1, 4, 1])).2 = NibImage.mk [1, 4, 1] ∧
    4 ∈ (load_nibabel (NibImage.mk [1, 4, 1])).1 :=
  ⟨(claim_C8_nibabel_squeeze (NibImage.mk [1, 4, 1])).1,
   (claim_C8_nibabel_squeeze (NibImage.mk [1, 4, 1])).2.2.2 4 (by decide) (by decide)⟩

/-- C9: when the plain read fails with InvalidDicomError the pydicom loader
retries exactly once in forced mode before failing, and any successful result
is the pixel array transposed (axes reversed, matching the orientation
convention of the other backends) paired with the dataset as header. -/
theorem claim_C9_pydicom_retry_transpose (readFile : Bool → DicomRead) :
    (∀ e, readFile false = DicomRead.invalidDicom e →
      (load_pydicom readFile).2 = [false, true] ∧
      (∀ img, readFile true = DicomRead.ok img →
        (load_pydicom readFile).1 = Except.ok (transposeShape img.pixelShape, img)) ∧
      (∀ e2, readFile true = DicomRead.invalidDicom e2 ∨
          readFile true = DicomRead.fail e2 →
        (load_pydicom readFile).1 = Except.error e2)) ∧
    (∀ shape hdr, (load_pydicom readFile).1 = Except.ok (shape, hdr) →
      shape = hdr.pixelShape.reverse) := by
  constructor
  · intro e he
    refine ⟨?_, ?_, ?_⟩
    · cases h1 : readFile true <;> simp [load_pydicom, he, h1]
    · intro img him
      simp [load_pydicom, he, him]
    · intro e2 h2
      rcases h2 with h2 | h2 <;> simp [load_pydicom, he, h2]
  · intro shape hdr h
    unfold load_pydicom at h
    cases h0 : readFile false with
    | ok img =>
      rw [h0] at h
      injection h with h
      injection h with h1 h2
      subst h2
      simpa [transposeShape] using h1.symm
    | invalidDicom e =>
      rw [h0] at h
      cases h1 : readFile true with
      | ok img =>
        rw [h1] at h
        injection h with h
        injection h with h2 h3
        subst h3
        simpa [transposeShape] using h2.symm
      | invalidDicom e2 =>
        rw [h1] at h
        cases h
      | fail e2 =>
        rw [h1] at h
        cases h
    | fail e =>
      rw [h0] at h
      cases h

/-- Witness for C9: the plain read raises InvalidDicomError, the forced retry
succeeds with a pixel array of shape [2, 3]. -/
theorem claim_C9_pydicom_retry_transpose_witness :
    (load_pydicom (fun force => if force then DicomRead.ok (DicomImage.mk [2, 3])
      else DicomRead.invalidDicom "bad preamble")).2 = [false, true] ∧
    (load_pydicom (fun force => if force then DicomRead.ok (DicomImage.mk [2, 3])
      else DicomRead.invalidDicom "bad preamble")).1 =
      Except.ok (transposeShape [2, 3], DicomImage.mk [2, 3]) :=
  ⟨((claim_C9_pydicom_retry_transpose _).1 "bad preamble" rfl).1,
   ((claim_C9_pydicom_retry_transpose _).1 "bad preamble" rfl).2.1
     (DicomImage.mk [2, 3]) rfl⟩

end Medpy
